import Mathlib

/-!
Shallow embedding of the flaredream dashboard worker (`src/index.ts`).

The TypeScript source is translated definition-by-definition:

* JavaScript string builtins (`split`, `includes`, `startsWith`, `endsWith`,
  `trim`, `replace(/['"]/g,'')`) are modelled as executable Lean functions
  over `List Char` with structural (fuel-based) recursion so that every
  definition evaluates inside the kernel.
* `fetch`-based effects are modelled as explicit inputs: the upstream
  repository fetch becomes an `Option (List Repository)` (`none` = non-ok
  response or a thrown error before rendering), and the per-repository
  config-file probe becomes a function `String → Option String` returning
  the decoded file content of a candidate (`none` = 404 / transport error /
  body decode failure).  `JSON.parse` is a host builtin and is passed in as
  a function `String → Option WranglerConfig` (`none` models a parse throw).
* `Date.now()` is modelled as an explicit `now : Nat` argument threaded to
  the one place the source reads the clock (the HTML template).
* KV writes (`env.FLAREDREAM_KV.put`) are collected in order as a list of
  `KVWrite` records; the code never passes an expiration option, which is
  recorded as `ttl := none`.
-/

set_option maxRecDepth 40000

/-! ### Models of the JavaScript string builtins -/

/-- Splitter for `String.prototype.split(sep)` on character lists; the fuel
argument is bounded by the input length so the recursion is structural. -/
def splitChars (sep : List Char) : Nat → List Char → List Char → List (List Char)
  | _, [], cur => [cur.reverse]
  | 0, l, cur => [cur.reverse ++ l]
  | fuel+1, c :: rest, cur =>
    if sep.isPrefixOf (c :: rest)
    then cur.reverse :: splitChars sep fuel (List.drop (sep.length - 1) rest) []
    else splitChars sep fuel rest (c :: cur)

/-- JS `s.split(sep)` for a non-empty separator. -/
def jsSplit (s sep : String) : List String :=
  (splitChars sep.data s.data.length s.data []).map String.mk

/-- Does `pat` occur as a contiguous run inside `l`? -/
def hasSub (pat : List Char) : List Char → Bool
  | [] => pat.isEmpty
  | c :: rest => pat.isPrefixOf (c :: rest) || hasSub pat rest

/-- JS `s.includes(pat)`. -/
def jsIncludes (s pat : String) : Bool := hasSub pat.data s.data

/-- JS `s.startsWith(pre)`. -/
def jsStartsWith (s pre : String) : Bool := pre.data.isPrefixOf s.data

/-- JS `s.endsWith(suf)`. -/
def jsEndsWith (s suf : String) : Bool := suf.data.isSuffixOf s.data

/-- JS `s.trim()` (ASCII whitespace suffices for the config lines handled
here). -/
def jsTrim (s : String) : String :=
  String.mk (((s.data.dropWhile Char.isWhitespace).reverse.dropWhile
    Char.isWhitespace).reverse)

/-- JS `s.replace(/['"]/g, '')`: drop every apostrophe and double quote. -/
def stripQuotes (s : String) : String :=
  String.mk (s.data.filter (fun c => !(c == '\'') && !(c == '"')))

/-! ### Data model (`interface` declarations of the source) -/

/-- One element of `WranglerConfig.routes` (`{ pattern, custom_domain? }`). -/
structure RouteRule where
  pattern : String
  custom_domain : Option Bool := none
deriving Repr, DecidableEq

/-- A `kv_namespaces` entry. -/
structure KVNamespaceBinding where
  binding : String
  id : String
deriving Repr, DecidableEq

/-- An `r2_buckets` entry. -/
structure R2Bucket where
  binding : String
  bucket_name : String
deriving Repr, DecidableEq

/-- A `d1_databases` entry. -/
structure D1Database where
  binding : String
  database_name : String
  database_id : String
deriving Repr, DecidableEq

/-- `interface WranglerConfig` (every field optional). The `vars` field of
the source is an arbitrary JSON object never read by any code path and is
omitted. -/
structure WranglerConfig where
  name : Option String := none
  routes : Option (List RouteRule) := none
  route : Option RouteRule := none
  compatibility_date : Option String := none
  main : Option String := none
  kv_namespaces : Option (List KVNamespaceBinding) := none
  r2_buckets : Option (List R2Bucket) := none
  d1_databases : Option (List D1Database) := none
deriving Repr, DecidableEq

/-- The `owner` field of a repository. -/
structure Owner where
  login : String
  id : Nat
deriving Repr, DecidableEq

/-- `interface Repository` as fetched from the aggregation endpoint.
`string | null` fields are `Option String`. -/
structure Repository where
  id : Nat
  name : String
  owner : Owner
  description : Option String
  html_url : String
  default_branch : String
  created_at : String
  updated_at : String
  topics : List String
  archived : Bool
  «private» : Bool
  homepage : Option String
  stargazers_count : Nat
  watchers_count : Nat
  forks : Nat
  open_issues : Nat
  size : Nat
  language : Option String
  forks_count : Nat
deriving Repr, DecidableEq

/-- `interface RepositoryWithWorker extends Repository` (all three extra
fields optional, absent before processing). -/
structure RepositoryWithWorker extends Repository where
  isWorker : Option Bool := none
  wranglerConfig : Option WranglerConfig := none
  domains : Option (List String) := none
deriving Repr, DecidableEq

/-! ### `parseWranglerConfig` -/

/-- One iteration of the TOML line loop in `parseWranglerConfig`: the three
independent `if` statements on the trimmed line. `split('=')[1]` is taken
with default `""`; whenever a guard holds the line contains `'='`, so the
index is in range exactly as in the source. -/
def parseTomlLine (config : WranglerConfig) (line : String) : WranglerConfig :=
  let trimmed := jsTrim line
  let config :=
    if jsStartsWith trimmed "name =" then
      { config with
        name := some (stripQuotes (jsTrim ((jsSplit trimmed "=").getD 1 ""))) }
    else config
  let config :=
    if jsStartsWith trimmed "main =" then
      { config with
        main := some (stripQuotes (jsTrim ((jsSplit trimmed "=").getD 1 ""))) }
    else config
  let config :=
    if jsIncludes trimmed "pattern =" then
      let pat := stripQuotes (jsTrim ((jsSplit trimmed "=").getD 1 ""))
      { config with
        routes := some ((config.routes.getD []) ++ [{ pattern := pat }]) }
    else config
  config

/-- `parseWranglerConfig(content, fileName)` under the typed restriction:
`.toml` files go through the restricted line-oriented parser (which never
fails); everything else goes through the host `JSON.parse`, whose throw is
caught and turned into the empty config `{}`.  Typing the parser's result
as `WranglerConfig` assumes the parsed value conforms to the declared
schema; a parse success with a nonconformant value (which in the source
throws later, inside `extractDomains`) is modelled separately by
`parseWranglerConfigJS` and `extractDomainsJS` below. -/
def parseWranglerConfig (jsonParse : String → Option WranglerConfig)
    (content fileName : String) : WranglerConfig :=
  if jsEndsWith fileName ".toml" then
    (jsSplit content "\n").foldl parseTomlLine {}
  else
    (jsonParse content).getD {}

/-! ### `extractDomains` -/

/-- `extractDomains(config?)`: collect `routes[*].pattern` then
`route.pattern`, keeping only truthy patterns without a `'*'`. -/
def extractDomains (config : Option WranglerConfig) : List String :=
  match config with
  | none => []
  | some config =>
    let domains : List String := []
    let domains :=
      match config.routes with
      | some routes =>
        routes.foldl
          (fun acc route =>
            if !(route.pattern == "") && !(jsIncludes route.pattern "*") then
              acc ++ [route.pattern]
            else acc)
          domains
      | none => domains
    let domains :=
      match config.route with
      | some route =>
        if !(route.pattern == "") && !(jsIncludes route.pattern "*") then
          domains ++ [route.pattern]
        else domains
      | none => domains
    domains

/-! ### `processRepository` -/

/-- The ordered candidate list `wranglerFiles` of `processRepository`. -/
def wranglerFiles : List String := ["wrangler.toml", "wrangler.json", "wrangler.jsonc"]

/-- The probe loop of `processRepository`: try each candidate file in order;
`probe f = none` models a not-found/transport/decode failure (the loop's
`catch` continues), `some content` models a successful retrieval of the
decoded file body (after `response.json()` and `atob`), on which the loop
`break`s.  Returns the first hit (file name and content) together with the
list of candidates actually requested, in order. -/
def probeFirst (probe : String → Option String) :
    List String → Option (String × String) × List String
  | [] => (none, [])
  | f :: rest =>
    match probe f with
    | some c => (some (f, c), [f])
    | none =>
      let r := probeFirst probe rest
      (r.1, f :: r.2)

/-- `processRepository(repo, accessToken)` under the typed restriction:
spread the repository, then on the first successful candidate retrieval
set `isWorker`, parse the config and extract the domains. The access token
only influences the probe responses and is therefore part of the `probe`
model.  This restriction is accurate whenever every parsed value conforms
to the `WranglerConfig` schema (in particular for `.toml` candidates and
for parse failures, where the config is `{}`); the loop's behaviour on a
schema-nonconformant parse success — where `extractDomains` throws inside
the `try` and probing continues — is modelled by `probeLoopJS` /
`processRepositoryJS` below. -/
def processRepository (jsonParse : String → Option WranglerConfig)
    (repo : Repository) (probe : String → Option String) : RepositoryWithWorker :=
  match (probeFirst probe wranglerFiles).1 with
  | none => { toRepository := repo }
  | some (fileName, content) =>
    let cfg := parseWranglerConfig jsonParse content fileName
    { toRepository := repo
      isWorker := some true
      wranglerConfig := some cfg
      domains := some (extractDomains (some cfg)) }


/-! ### Template fragments

The string literals below are the static chunks of the template literals in
`generateDashboard`, `generateRepoCard`, `generateMarkdownDashboard` and
`generateRepoMarkdown`, split exactly at the interpolation points of the
source (`hD*` = outer HTML document, `wS*`/`oS*` = worker/other section,
`cC*` = repo card, `dT*`/`lT*` = description/language fragments, `aB*`/`aW*`
= base/worker action buttons, `dV*`/`dL*` = domains block and domain link).
Literal braces are written `\x7b`/`\x7d` and apostrophes `\x27`. -/

def hD0 : String := "<!DOCTYPE html>\n<html lang=\"en\">\n<head>\n    <meta charset=\"UTF-8\">\n    <meta name=\"viewport\" content=\"width=device-width, initial-scale=1.0\">\n    <title>"
def hD1 : String := " - Flaredream Dashboard</title>\n    <script type=\"application/json\" id=\"dashboard-data\">\n    "
def hD2 : String := "\n    </script>\n    <style>\n        * \x7b margin: 0; padding: 0; box-sizing: border-box; \x7d\n        body \x7b\n            font-family: \x27Inter\x27, -apple-system, BlinkMacSystemFont, sans-serif;\n            background: linear-gradient(135deg, #0a0a0a 0%, #1a1a1a 50%, #2a1810 100%);\n            color: #ffffff;\n            min-height: 100vh;\n        \x7d\n        .container \x7b max-width: 1200px; margin: 0 auto; padding: 2rem; \x7d\n        .header \x7b\n            display: flex;\n            justify-content: space-between;\n            align-items: center;\n            margin-bottom: 2rem;\n            padding: 1.5rem;\n            background: rgba(255, 255, 255, 0.05);\n            border-radius: 16px;\n            backdrop-filter: blur(20px);\n            border: 1px solid rgba(255, 107, 53, 0.2);\n        \x7d\n        .header h1 \x7b\n            font-size: 2rem;\n            background: linear-gradient(135deg, #ff6b35, #f7931e);\n            -webkit-background-clip: text;\n            -webkit-text-fill-color: transparent;\n        \x7d\n        .header-actions \x7b\n            display: flex;\n            gap: 1rem;\n        \x7d\n        .btn \x7b\n            padding: 0.75rem 1.5rem;\n            border: none;\n            border-radius: 8px;\n            cursor: pointer;\n            font-weight: 600;\n            text-decoration: none;\n            display: inline-block;\n            transition: all 0.3s ease;\n        \x7d\n        .btn-primary \x7b\n            background: linear-gradient(135deg, #ff6b35, #f7931e);\n            color: white;\n        \x7d\n        .btn-secondary \x7b\n            background: rgba(255, 255, 255, 0.1);\n            color: #ffffff;\n            border: 1px solid rgba(255, 107, 53, 0.3);\n        \x7d\n        .btn:hover \x7b\n            transform: translateY(-2px);\n            box-shadow: 0 4px 15px rgba(255, 107, 53, 0.3);\n        \x7d\n        .lmpify-chat \x7b\n            position: fixed;\n            bottom: 20px;\n            right: 20px;\n            width: 60px;\n            height: 60px;\n            background: linear-gradient(135deg, #ff6b35, #f7931e);\n            border-radius: 50%;\n            display: flex;\n            align-items: center;\n            justify-content: center;\n            color: white;\n            text-decoration: none;\n            font-size: 1.5rem;\n            box-shadow: 0 4px 20px rgba(255, 107, 53, 0.4);\n            z-index: 1000;\n        \x7d\n        .section \x7b\n            margin-bottom: 3rem;\n        \x7d\n        .section h2 \x7b\n            font-size: 1.5rem;\n            margin-bottom: 1rem;\n            color: #ff6b35;\n        \x7d\n        .repo-grid \x7b\n            display: grid;\n            grid-template-columns: repeat(auto-fill, minmax(400px, 1fr));\n            gap: 1.5rem;\n        \x7d\n        .repo-card \x7b\n            background: rgba(255, 255, 255, 0.05);\n            border: 1px solid rgba(255, 107, 53, 0.2);\n            border-radius: 12px;\n            padding: 1.5rem;\n            backdrop-filter: blur(10px);\n            transition: all 0.3s ease;\n        \x7d\n        .repo-card:hover \x7b\n            border-color: rgba(255, 107, 53, 0.4);\n            transform: translateY(-2px);\n        \x7d\n        .repo-header \x7b\n            display: flex;\n            align-items: center;\n            justify-content: space-between;\n            margin-bottom: 1rem;\n        \x7d\n        .repo-name \x7b\n            font-size: 1.2rem;\n            font-weight: 600;\n            color: #ffffff;\n        \x7d\n        .worker-badge \x7b\n            background: linear-gradient(135deg, #ff6b35, #f7931e);\n            color: white;\n            padding: 0.25rem 0.75rem;\n            border-radius: 12px;\n            font-size: 0.75rem;\n            font-weight: 600;\n        \x7d\n        .repo-description \x7b\n            color: #ccc;\n            margin-bottom: 1rem;\n            line-height: 1.5;\n        \x7d\n        .repo-meta \x7b\n            display: flex;\n            gap: 1rem;\n            margin-bottom: 1rem;\n            font-size: 0.875rem;\n            color: #888;\n        \x7d\n        .repo-actions \x7b\n            display: flex;\n            flex-wrap: wrap;\n            gap: 0.5rem;\n        \x7d\n        .repo-actions .btn \x7b\n            padding: 0.5rem 1rem;\n            font-size: 0.875rem;\n        \x7d\n        .domains \x7b\n            margin-top: 0.5rem;\n        \x7d\n        .domain-link \x7b\n            display: inline-block;\n            background: rgba(255, 107, 53, 0.1);\n            color: #ff6b35;\n            padding: 0.25rem 0.75rem;\n            border-radius: 6px;\n            text-decoration: none;\n            font-size: 0.75rem;\n            margin-right: 0.5rem;\n            margin-bottom: 0.5rem;\n        \x7d\n        @media (max-width: 768px) \x7b\n            .repo-grid \x7b grid-template-columns: 1fr; \x7d\n            .header \x7b flex-direction: column; gap: 1rem; \x7d\n            .repo-actions \x7b justify-content: center; \x7d\n        \x7d\n    </style>\n</head>\n<body>\n    <div class=\"container\">\n        <div class=\"header\">\n            <div>\n                <h1>"
def hD3 : String := "\x27s Dashboard</h1>\n                <p style=\"color: #888; margin-top: 0.5rem;\">"
def hD4 : String := " repositories</p>\n            </div>\n            <div class=\"header-actions\">\n                <a href=\"/"
def hD5 : String := "/refresh\" class=\"btn btn-secondary\">🔄 Refresh</a>\n                "
def hD6 : String := "\n            </div>\n        </div>\n\n        "
def hD7 : String := "\n\n        "
def hD8 : String := "\n    </div>\n\n    <a href=\"https://lmpify.com/https://flaredream.com/"
def hD9 : String := "\" class=\"lmpify-chat\" title=\"Chat with AI about this dashboard\">\n        🤖\n    </a>\n\n    <script>\n        // Auto-refresh functionality\n        const data = JSON.parse(document.getElementById(\x27dashboard-data\x27).textContent);\n        if (!data.cache || Date.now() - data.cache > 300000) \x7b // 5 minutes\n            window.location.href = \x27/"
def hD10 : String := "/refresh\x27;\n        \x7d\n    </script>\n</body>\n</html>"
def wS0 : String := "\n        <div class=\"section\">\n            <h2>⚡ Cloudflare Workers ("
def wS1 : String := ")</h2>\n            <div class=\"repo-grid\">\n                "
def wS2 : String := "\n            </div>\n        </div>\n        "
def oS0 : String := "\n        <div class=\"section\">\n            <h2>📚 Other Repositories ("
def oS1 : String := ")</h2>\n            <div class=\"repo-grid\">\n                "
def oS2 : String := "\n            </div>\n        </div>\n        "
def cC0 : String := "\n    <div class=\"repo-card\">\n        <div class=\"repo-header\">\n            <div class=\"repo-name\">"
def cC1 : String := "</div>\n            "
def cC2 : String := "\n        </div>\n        "
def cC3 : String := "\n        <div class=\"repo-meta\">\n            "
def cC4 : String := "\n            <span>⭐ "
def cC5 : String := "</span>\n            <span>🍴 "
def cC6 : String := "</span>\n            <span>📦 "
def cC7 : String := "KB</span>\n        </div>\n        "
def cC8 : String := "\n        <div class=\"repo-actions\">\n            "
def cC9 : String := "\n        </div>\n    </div>\n  "
def dT0 : String := "<div class=\"repo-description\">"
def dT1 : String := "</div>"
def lT0 : String := "<span>📝 "
def lT1 : String := "</span>"
def aB0_0 : String := "<a href=\""
def aB0_1 : String := "\" class=\"btn btn-secondary\" target=\"_blank\">📖 GitHub</a>"
def aB1_0 : String := "<a href=\"https://github.dev/"
def aB1_1 : String := "/"
def aB1_2 : String := "\" class=\"btn btn-secondary\" target=\"_blank\">💻 Code</a>"
def aB2_0 : String := "<a href=\"https://lmpify.com/https://uithub.com/"
def aB2_1 : String := "/"
def aB2_2 : String := "\" class=\"btn btn-secondary\" target=\"_blank\">🤖 Chat</a>"
def aB3_0 : String := "<a href=\"https://uithub.com/"
def aB3_1 : String := "/"
def aB3_2 : String := "\" class=\"btn btn-secondary\" target=\"_blank\">🔗 uithub</a>"
def aW0_0 : String := "<a href=\"https://dash.cloudflare.com/?to=/"
def aW0_1 : String := "/workers-and-pages/create/deploy-to-workers&repository="
def aW0_2 : String := "\" class=\"btn btn-primary\" target=\"_blank\">🚀 Deploy</a>"
def aW1_0 : String := "<a href=\"https://dash.cloudflare.com/?to=/"
def aW1_1 : String := "/workers-and-pages/create/workers/provider/github/"
def aW1_2 : String := "/"
def aW1_3 : String := "/configure\" class=\"btn btn-secondary\" target=\"_blank\">⚙️ Configure</a>"
def aW2_0 : String := "<a href=\"https://dash.cloudflare.com/?to=/"
def aW2_1 : String := "/workers/services/view/"
def aW2_2 : String := "/production/deployments\" class=\"btn btn-secondary\" target=\"_blank\">📊 Deployments</a>"
def dV0 : String := "<div class=\"domains\">\n       "
def dL0 : String := "<a href=\"https://"
def dL1 : String := "\" class=\"domain-link\" target=\"_blank\">"
def dL2 : String := "</a>"
def dV1 : String := "\n     </div>"

/-! ### Dashboard renderers -/

/-- The worker badge literal of the repo-card header ternary. -/
def workerBadgeHtml : String := "<div class=\"worker-badge\">⚡ Worker</div>"

/-- The login button literal of the header ternary. -/
def loginBtnHtml : String := "<a href=\"/login\" class=\"btn btn-primary\">🔐 Login</a>"

/-- The logout button literal (both logged-in branches of the header
ternary produce this same markup). -/
def logoutBtnHtml : String := "<a href=\"/logout\" class=\"btn btn-secondary\">Logout</a>"

/-- The header ternary
`!currentUser ? login : currentUser.login !== username ? logout : logout`. -/
def headerAuthButtons (currentUser : Option Owner) (username : String) : String :=
  match currentUser with
  | none => loginBtnHtml
  | some u => if u.login != username then logoutBtnHtml else logoutBtnHtml

/-- `Math.round(repo.size / 1024)` on a natural byte count: JS rounds the
exact binary value half-up, which on naturals is `(size + 512) / 1024`. -/
def sizeKB (size : Nat) : Nat := (size + 512) / 1024

/-- The description hole of the repo card:
`repo.description ? <div...>...</div> : ''` (JS truthiness: `null` and the
empty string both fall to `''`). -/
def descriptionHtml (repo : RepositoryWithWorker) : String :=
  if !(repo.description.getD "" == "") then dT0 ++ repo.description.getD "" ++ dT1 else ""

/-- The language hole of the repo card meta row. -/
def languageHtml (repo : RepositoryWithWorker) : String :=
  if !(repo.language.getD "" == "") then lT0 ++ repo.language.getD "" ++ lT1 else ""

/-- `generateRepoCard(repo)`. -/
def generateRepoCard (repo : RepositoryWithWorker) : String :=
  let repoActions : List String :=
    [aB0_0 ++ repo.html_url ++ aB0_1,
     aB1_0 ++ repo.owner.login ++ aB1_1 ++ repo.name ++ aB1_2,
     aB2_0 ++ repo.owner.login ++ aB2_1 ++ repo.name ++ aB2_2,
     aB3_0 ++ repo.owner.login ++ aB3_1 ++ repo.name ++ aB3_2]
  let accountPlaceholder := ":account"
  let repoActions :=
    if repo.isWorker.getD false then
      repoActions ++
        [aW0_0 ++ accountPlaceholder ++ aW0_1 ++ repo.html_url ++ aW0_2,
         aW1_0 ++ accountPlaceholder ++ aW1_1 ++ repo.owner.login ++ aW1_2 ++ repo.name ++ aW1_3,
         aW2_0 ++ accountPlaceholder ++ aW2_1 ++ repo.name ++ aW2_2]
    else repoActions
  let domains :=
    if (repo.domains.getD []).length > 0 then
      dV0 ++ String.join ((repo.domains.getD []).map
        (fun domain => dL0 ++ domain ++ dL1 ++ domain ++ dL2)) ++ dV1
    else ""
  cC0 ++ repo.name ++ cC1 ++
    (if repo.isWorker.getD false then workerBadgeHtml else "") ++ cC2 ++
    descriptionHtml repo ++ cC3 ++
    languageHtml repo ++ cC4 ++
    Nat.repr repo.stargazers_count ++ cC5 ++
    Nat.repr repo.forks_count ++ cC6 ++
    Nat.repr (sizeKB repo.size) ++ cC7 ++
    domains ++ cC8 ++
    String.join repoActions ++ cC9

/-- The `data` record assembled in `handleRefresh` and consumed by
`generateDashboard` (`{ username, repositories, isOwner, currentUser }`). -/
structure DashboardData where
  username : String
  repositories : List RepositoryWithWorker
  isOwner : Bool
  currentUser : Option Owner
deriving Repr, DecidableEq

/-- The `format` argument of `generateDashboard` (`'html' | 'md'`). -/
inductive DashFormat
  | html
  | md
deriving Repr, DecidableEq

/-- `JSON.stringify({ cache: Date.now(), username })` with the clock value
passed in explicitly. -/
def jsonCacheBlob (now : Nat) (username : String) : String :=
  "\x7b\"cache\":" ++ Nat.repr now ++ ",\"username\":\"" ++ username ++ "\"\x7d"

/-- The head of the HTML document up to the embedded cache JSON. -/
def htmlHead1 (username : String) : String := hD0 ++ username ++ hD1

/-- The HTML document after the embedded cache JSON. -/
def htmlTail (data : DashboardData) : String :=
  let workerRepos := data.repositories.filter (fun r => r.isWorker.getD false)
  let otherRepos := data.repositories.filter (fun r => !(r.isWorker.getD false))
  hD2 ++ data.username ++ hD3 ++
    Nat.repr data.repositories.length ++ hD4 ++
    data.username ++ hD5 ++
    headerAuthButtons data.currentUser data.username ++ hD6 ++
    (if workerRepos.length > 0 then
      wS0 ++ Nat.repr workerRepos.length ++ wS1 ++
        String.join (workerRepos.map generateRepoCard) ++ wS2
    else "") ++ hD7 ++
    (if otherRepos.length > 0 then
      oS0 ++ Nat.repr otherRepos.length ++ oS1 ++
        String.join (otherRepos.map generateRepoCard) ++ oS2
    else "") ++ hD8 ++
    data.username ++ hD9 ++
    data.username ++ hD10

/-- The HTML branch of `generateDashboard`: the full template literal, with
the single `Date.now()` read of the renderer as an explicit argument. -/
def generateDashboardHtml (now : Nat) (data : DashboardData) : String :=
  htmlHead1 data.username ++ jsonCacheBlob now data.username ++ htmlTail data

/-- The markdown domain link `[${domain}](https://${domain})`. -/
def mdDomainLink (domain : String) : String :=
  "[" ++ domain ++ "](https://" ++ domain ++ ")"

/-- The description line of the markdown card (same truthiness rule). -/
def descriptionMd (repo : RepositoryWithWorker) : String :=
  if !(repo.description.getD "" == "") then repo.description.getD "" ++ "\n\n" else ""

/-- The language suffix of the markdown stats line. -/
def languageMd (repo : RepositoryWithWorker) : String :=
  if !(repo.language.getD "" == "") then " | 📝 " ++ repo.language.getD "" else ""

/-- `generateRepoMarkdown(repo)`. -/
def generateRepoMarkdown (repo : RepositoryWithWorker) : String :=
  let accountPlaceholder := ":account"
  let markdown := "### " ++ repo.name ++ "\n\n"
  let markdown := markdown ++ descriptionMd repo
  let markdown := markdown ++ "**Stats:** ⭐ " ++ Nat.repr repo.stargazers_count ++
    " | 🍴 " ++ Nat.repr repo.forks_count ++ " | 📦 " ++ Nat.repr (sizeKB repo.size) ++ "KB"
  let markdown := markdown ++ languageMd repo
  let markdown := markdown ++ "\n\n"
  let markdown := markdown ++
    (if (repo.domains.getD []).length > 0 then
      "**Domains:** " ++
        String.intercalate ", " ((repo.domains.getD []).map mdDomainLink) ++ "\n\n"
    else "")
  let markdown := markdown ++ "**Links:** [GitHub](" ++ repo.html_url ++
    ") | [Code](https://github.dev/" ++ repo.owner.login ++ "/" ++ repo.name ++
    ") | [Chat](https://lmpify.com/https://uithub.com/" ++ repo.owner.login ++ "/" ++ repo.name ++
    ") | [uithub](https://uithub.com/" ++ repo.owner.login ++ "/" ++ repo.name ++ ")"
  let markdown := markdown ++
    (if repo.isWorker.getD false then
      " | [🚀 Deploy](https://dash.cloudflare.com/?to=/" ++ accountPlaceholder ++
        "/workers-and-pages/create/deploy-to-workers&repository=" ++ repo.html_url ++
        ") | [⚙️ Configure](https://dash.cloudflare.com/?to=/" ++ accountPlaceholder ++
        "/workers-and-pages/create/workers/provider/github/" ++ repo.owner.login ++
        "/" ++ repo.name ++ "/configure)"
    else "")
  markdown ++ "\n\n---\n\n"

/-- `generateMarkdownDashboard(data)`. -/
def generateMarkdownDashboard (data : DashboardData) : String :=
  let workerRepos := data.repositories.filter (fun r => r.isWorker.getD false)
  let otherRepos := data.repositories.filter (fun r => !(r.isWorker.getD false))
  let markdown := "# " ++ data.username ++ "\x27s Dashboard\n\n"
  let markdown := markdown ++ "Total repositories: " ++
    Nat.repr data.repositories.length ++ "\n\n"
  let markdown := markdown ++
    (if workerRepos.length > 0 then
      "## ⚡ Cloudflare Workers (" ++ Nat.repr workerRepos.length ++ ")\n\n" ++
        String.join (workerRepos.map generateRepoMarkdown)
    else "")
  let markdown := markdown ++
    (if otherRepos.length > 0 then
      "## 📚 Other Repositories (" ++ Nat.repr otherRepos.length ++ ")\n\n" ++
        String.join (otherRepos.map generateRepoMarkdown)
    else "")
  markdown

/-- `generateDashboard(data, format)` with the renderer-internal
`Date.now()` read passed in as `now` (only the HTML branch uses it). -/
def generateDashboard (data : DashboardData) (format : DashFormat) (now : Nat) : String :=
  match format with
  | .md => generateMarkdownDashboard data
  | .html => generateDashboardHtml now data

/-! ### `handleRefresh` and the KV cache model -/

/-- One `env.FLAREDREAM_KV.put(key, value)` call.  The Cloudflare KV API
takes an optional `{ expirationTtl }` third argument; `handleRefresh` never
passes one, so the model records the supplied TTL (`none` = no TTL). -/
structure KVWrite where
  key : String
  value : String
  ttl : Option Nat
deriving Repr, DecidableEq

/-- The request-derived and effect inputs of `handleRefresh`:
`currentUser` is `getCurrentUser(request)`, `accessToken` is
`getAccessToken(request)`, `upstream` is the body of the
`cache.forgithub.com/repos/{username}` response (`none` = `!response.ok` or
any throw before rendering, e.g. a malformed body), `probe` gives each
repository's config-file retrieval outcomes and `jsonParse` is the host
JSON parser.  The Authorization header (sent iff owner with token) only
shapes `upstream`, which is why `upstream` is an input. -/
structure RefreshInput where
  username : String
  currentUser : Option Owner
  accessToken : Option String
  upstream : Option (List Repository)
  probe : Repository → String → Option String
  jsonParse : String → Option WranglerConfig

/-- The observable outcome of `handleRefresh`: the HTTP status of the
returned response (302 redirect on success, 500 on failure) and the KV
writes performed, in order. -/
structure RefreshResult where
  status : Nat
  writes : List KVWrite
deriving Repr, DecidableEq

/-- `handleRefresh(request, env, username)`.  On a failed fetch the thrown
error is caught and a 500 response returned with no KV write; on success
both formats are rendered once and written under the public keys, and
additionally under the private keys iff `currentUser?.login === username`. -/
def handleRefresh (inp : RefreshInput) (now : Nat) : RefreshResult :=
  let isOwner :=
    match inp.currentUser with
    | some u => u.login == inp.username
    | none => false
  match inp.upstream with
  | none => { status := 500, writes := [] }
  | some repositories =>
    let processedRepos :=
      repositories.map (fun repo => processRepository inp.jsonParse repo (inp.probe repo))
    let data : DashboardData :=
      { username := inp.username, repositories := processedRepos
        isOwner := isOwner, currentUser := inp.currentUser }
    let html := generateDashboard data .html now
    let markdown := generateDashboard data .md now
    let publicCacheKey := "dashboard:" ++ inp.username ++ ":public"
    let privateCacheKey := "dashboard:" ++ inp.username ++ ":private"
    let writes :=
      [{ key := publicCacheKey ++ ":html", value := html, ttl := none },
       { key := publicCacheKey ++ ":md", value := markdown, ttl := none }]
    let writes :=
      if isOwner then
        writes ++
          [{ key := privateCacheKey ++ ":html", value := html, ttl := none },
           { key := privateCacheKey ++ ":md", value := markdown, ttl := none }]
      else writes
    { status := 302, writes := writes }

/-- `currentUser?.login === username`, the owner check of `handleRefresh`. -/
def isOwnerOf (inp : RefreshInput) : Bool :=
  match inp.currentUser with
  | some u => u.login == inp.username
  | none => false

/-- The cache key scheme `dashboard:{username}:{tier}:{format}`. -/
def cacheKey (username tier format : String) : String :=
  "dashboard:" ++ username ++ ":" ++ tier ++ ":" ++ format

/-- Apply a list of KV writes to a cache state (later writes win). -/
def applyWrites (writes : List KVWrite) (kv : String → Option String) :
    String → Option String :=
  writes.foldl (fun kv w => fun k => if k == w.key then some w.value else kv k) kv

/-- The content stored under `k` by a write list (the last write to `k`),
as the KV store would return it afterwards when starting empty. -/
def getWrite (writes : List KVWrite) (k : String) : Option String :=
  applyWrites writes (fun _ => none) k

/-- Did the write list touch a private-tier key for `username`? -/
def wrotePrivateTier (inp : RefreshInput) (now : Nat) : Bool :=
  (handleRefresh inp now).writes.any
    (fun w => w.key == cacheKey inp.username "private" "html" ||
      w.key == cacheKey inp.username "private" "md")

/-! ### Helper lemmas about the cache keys and the write list -/

lemma cacheKey_pub_html (u : String) :
    ("dashboard:" ++ u ++ ":public") ++ ":html" = cacheKey u "public" "html" := by
  simp only [cacheKey, String.append_assoc]
  congr 1

lemma cacheKey_pub_md (u : String) :
    ("dashboard:" ++ u ++ ":public") ++ ":md" = cacheKey u "public" "md" := by
  simp only [cacheKey, String.append_assoc]
  congr 1

lemma cacheKey_priv_html (u : String) :
    ("dashboard:" ++ u ++ ":private") ++ ":html" = cacheKey u "private" "html" := by
  simp only [cacheKey, String.append_assoc]
  congr 1

lemma cacheKey_priv_md (u : String) :
    ("dashboard:" ++ u ++ ":private") ++ ":md" = cacheKey u "private" "md" := by
  simp only [cacheKey, String.append_assoc]
  congr 1

lemma cacheKey_length (u t f : String) :
    (cacheKey u t f).length = u.length + t.length + f.length + 12 := by
  have h10 : ("dashboard:" : String).length = 10 := by decide
  have h1 : (":" : String).length = 1 := by decide
  simp [cacheKey, String.length_append, h10, h1]
  omega

lemma cacheKey_tier_format_ne (u : String) (t₁ f₁ t₂ f₂ : String)
    (h : t₁.length + f₁.length ≠ t₂.length + f₂.length) :
    (cacheKey u t₁ f₁ == cacheKey u t₂ f₂) = false := by
  rw [beq_eq_false_iff_ne]
  intro he
  have := congrArg String.length he
  rw [cacheKey_length, cacheKey_length] at this
  omega

lemma cacheKey_tier_format_ne' (u : String) (t₁ f₁ t₂ f₂ : String)
    (h : t₁.length + f₁.length ≠ t₂.length + f₂.length) :
    cacheKey u t₁ f₁ ≠ cacheKey u t₂ f₂ := by
  have hb := cacheKey_tier_format_ne u t₁ f₁ t₂ f₂ h
  exact beq_eq_false_iff_ne.mp hb

/-- The repository list rendered by a refresh: the raw upstream list mapped
through `processRepository`, with no privacy filtering anywhere. -/
def dataOf (inp : RefreshInput) (repos : List Repository) : DashboardData :=
  { username := inp.username
    repositories := repos.map (fun r => processRepository inp.jsonParse r (inp.probe r))
    isOwner := isOwnerOf inp
    currentUser := inp.currentUser }

lemma handleRefresh_writes_owner (inp : RefreshInput) (now : Nat)
    (repos : List Repository) (h1 : inp.upstream = some repos)
    (h2 : isOwnerOf inp = true) :
    (handleRefresh inp now).writes =
      [{ key := cacheKey inp.username "public" "html",
         value := generateDashboard (dataOf inp repos) .html now, ttl := none },
       { key := cacheKey inp.username "public" "md",
         value := generateDashboard (dataOf inp repos) .md now, ttl := none },
       { key := cacheKey inp.username "private" "html",
         value := generateDashboard (dataOf inp repos) .html now, ttl := none },
       { key := cacheKey inp.username "private" "md",
         value := generateDashboard (dataOf inp repos) .md now, ttl := none }] := by
  have h2' : (match inp.currentUser with
      | some u => u.login == inp.username
      | none => false) = true := h2
  simp only [handleRefresh, h1, h2', if_true, dataOf, isOwnerOf]
  rw [cacheKey_pub_html, cacheKey_pub_md, cacheKey_priv_html, cacheKey_priv_md]
  simp [h2']

lemma handleRefresh_writes_nonowner (inp : RefreshInput) (now : Nat)
    (repos : List Repository) (h1 : inp.upstream = some repos)
    (h2 : isOwnerOf inp = false) :
    (handleRefresh inp now).writes =
      [{ key := cacheKey inp.username "public" "html",
         value := generateDashboard (dataOf inp repos) .html now, ttl := none },
       { key := cacheKey inp.username "public" "md",
         value := generateDashboard (dataOf inp repos) .md now, ttl := none }] := by
  have h2' : (match inp.currentUser with
      | some u => u.login == inp.username
      | none => false) = false := h2
  simp only [handleRefresh, h1, h2', if_false, dataOf, isOwnerOf]
  rw [cacheKey_pub_html, cacheKey_pub_md]
  simp [h2']

/-! ### Sample inputs used by witnesses and counterexamples -/

/-- A probe with every candidate file absent. -/
def probeNone : Repository → String → Option String := fun _ _ => none

/-- A host `JSON.parse` model for runs in which it is either never invoked
or only invoked on malformed content (where the real parser throws). -/
def jsonParseNone : String → Option WranglerConfig := fun _ => none

/-- Refresh input whose upstream fetch fails. -/
def inpFail : RefreshInput :=
  { username := "a", currentUser := none, accessToken := none
    upstream := none, probe := probeNone, jsonParse := jsonParseNone }

/-- Anonymous refresh of user `a` with an empty upstream list. -/
def inpAnon : RefreshInput :=
  { username := "a", currentUser := none, accessToken := none
    upstream := some [], probe := probeNone, jsonParse := jsonParseNone }

/-- Refresh of user `a` requested by `a` herself while holding no access
token. -/
def inpOwnerNoToken : RefreshInput :=
  { username := "a", currentUser := some { login := "a", id := 1 }, accessToken := none
    upstream := some [], probe := probeNone, jsonParse := jsonParseNone }

/-- Refresh of user `a` requested by `a` with an access token. -/
def inpOwner : RefreshInput :=
  { username := "a", currentUser := some { login := "a", id := 1 }, accessToken := some "t"
    upstream := some [], probe := probeNone, jsonParse := jsonParseNone }

/-! ### Claim C4 -/

/-- Claim C4: when the upstream aggregation fetch returns a non-success
response (or the refresh otherwise fails before rendering, modelled by
`upstream = none`), the refresh surfaces a 500 failure, performs no cache
write at all, and leaves every previously cached entry exactly as it was. -/
theorem C4_failed_refresh_preserves_cache (inp : RefreshInput) (now : Nat)
    (h : inp.upstream = none) :
    (handleRefresh inp now).status = 500 ∧ (handleRefresh inp now).writes = [] ∧
      ∀ kv : String → Option String, applyWrites (handleRefresh inp now).writes kv = kv := by
  refine ⟨?_, ?_, ?_⟩ <;> simp [handleRefresh, h, applyWrites]

/-- Witness for C4 at a concrete failing input. -/
theorem C4_failed_refresh_preserves_cache_witness :
    (handleRefresh inpFail 0).status = 500 ∧ (handleRefresh inpFail 0).writes = [] ∧
      ∀ kv : String → Option String, applyWrites (handleRefresh inpFail 0).writes kv = kv :=
  C4_failed_refresh_preserves_cache inpFail 0 rfl

/-! ### Claim C9 -/

/-- Claim C9 counterexample: a successful refresh performs cache writes,
none of which supplies a TTL — `put` is called with no expiration option,
so the claim "every cache write supplies a time-to-live" fails already at
the first write of this concrete refresh. -/
theorem C9_counterexample_write_without_ttl :
    (handleRefresh inpAnon 0).writes ≠ [] ∧
      ((handleRefresh inpAnon 0).writes.all (fun w => w.ttl.isSome)) = false := by
  exact ⟨by decide, by decide⟩

/-- Claim C9 as amended: no cache write of a refresh ever supplies a TTL;
entries persist until overwritten (staleness is instead bounded by the
client-side auto-refresh check embedded in the markup). -/
theorem C9_refresh_writes_carry_no_ttl (inp : RefreshInput) (now : Nat) :
    ((handleRefresh inp now).writes.all (fun w => w.ttl == none)) = true := by
  rcases h : inp.upstream with _ | repos
  · simp [handleRefresh, h]
  · cases h2 : isOwnerOf inp
    · rw [handleRefresh_writes_nonowner inp now repos h h2]
      simp
    · rw [handleRefresh_writes_owner inp now repos h h2]
      simp

/-! ### Claim C3 -/

/-- Claim C3 counterexample: the requester is the target user but holds no
access credential, yet the refresh writes the private-tier cache entries —
the source guards the private writes with `if (isOwner)` alone and never
checks the token. -/
theorem C3_counterexample_private_written_without_credential :
    inpOwnerNoToken.accessToken = none ∧ wrotePrivateTier inpOwnerNoToken 0 = true := by
  exact ⟨rfl, by decide⟩

/-- Claim C3 as amended: a private-tier cache entry is written exactly when
the refresh succeeds and the requesting viewer's login equals the target
username — holding an access credential is not required. -/
theorem C3_private_tier_written_iff_owner (inp : RefreshInput) (now : Nat) :
    wrotePrivateTier inp now = (isOwnerOf inp && inp.upstream.isSome) := by
  rcases h : inp.upstream with _ | repos
  · simp [wrotePrivateTier, handleRefresh, h]
  · cases h2 : isOwnerOf inp
    · have e1 := cacheKey_tier_format_ne inp.username "public" "html" "private" "html" (by decide)
      have e2 := cacheKey_tier_format_ne inp.username "public" "html" "private" "md" (by decide)
      have e3 := cacheKey_tier_format_ne inp.username "public" "md" "private" "html" (by decide)
      have e4 := cacheKey_tier_format_ne inp.username "public" "md" "private" "md" (by decide)
      rw [wrotePrivateTier, handleRefresh_writes_nonowner inp now repos h h2]
      simp [e1, e2, e3, e4, h, h2]
    · rw [wrotePrivateTier, handleRefresh_writes_owner inp now repos h h2]
      simp [h, h2]

/-! ### Claim C10 -/

/-- Claim C10: after a successful refresh requested by the owner, for each
output format the string stored under the public-tier cache key is
byte-identical to the string stored under the private-tier key — all four
entries come from one rendering of the same unfiltered repository list. -/
theorem C10_owner_refresh_public_equals_private (inp : RefreshInput) (now : Nat)
    (repos : List Repository) (h1 : inp.upstream = some repos)
    (h2 : isOwnerOf inp = true) :
    (getWrite (handleRefresh inp now).writes (cacheKey inp.username "public" "html") =
       getWrite (handleRefresh inp now).writes (cacheKey inp.username "private" "html")) ∧
    (getWrite (handleRefresh inp now).writes (cacheKey inp.username "public" "html")).isSome = true ∧
    (getWrite (handleRefresh inp now).writes (cacheKey inp.username "public" "md") =
       getWrite (handleRefresh inp now).writes (cacheKey inp.username "private" "md")) ∧
    (getWrite (handleRefresh inp now).writes (cacheKey inp.username "public" "md")).isSome = true := by
  have e1 := cacheKey_tier_format_ne' inp.username "public" "html" "private" "md" (by decide)
  have e2 := cacheKey_tier_format_ne' inp.username "public" "html" "private" "html" (by decide)
  have e3 := cacheKey_tier_format_ne' inp.username "public" "html" "public" "md" (by decide)
  have e4 := cacheKey_tier_format_ne' inp.username "private" "html" "private" "md" (by decide)
  have e5 := cacheKey_tier_format_ne' inp.username "public" "md" "private" "md" (by decide)
  have e6 := cacheKey_tier_format_ne' inp.username "public" "md" "private" "html" (by decide)
  have e7 := cacheKey_tier_format_ne' inp.username "public" "md" "public" "html" (by decide)
  have e8 := cacheKey_tier_format_ne' inp.username "private" "md" "private" "html" (by decide)
  rw [handleRefresh_writes_owner inp now repos h1 h2]
  simp [getWrite, applyWrites, e1, e2, e3, e4, e5, e6, e7, e8]

/-- Witness for C10 at a concrete owner refresh. -/
theorem C10_owner_refresh_public_equals_private_witness :
    isOwnerOf inpOwner = true ∧
    (getWrite (handleRefresh inpOwner 0).writes (cacheKey inpOwner.username "public" "html") =
       getWrite (handleRefresh inpOwner 0).writes (cacheKey inpOwner.username "private" "html")) :=
  ⟨by decide, (C10_owner_refresh_public_equals_private inpOwner 0 [] rfl (by decide)).1⟩

/-! ### Claim C6: dynamic (untyped) model of the detection loop

The typed `processRepository` above is accurate whenever the parsed JSON
value conforms to the declared `WranglerConfig` schema (and for `.toml`
candidates, whose restricted parser only ever produces conformant values).
The source, however, casts `JSON.parse`'s result without validation, and
`extractDomains` runs inside the probe loop's `try` BEFORE `break`: on a
schema-nonconformant value (e.g. `routes` not an array) the dynamic
property access throws a TypeError after `isWorker` and `wranglerConfig`
were already assigned, the `catch` swallows it, `break` is skipped, and
detection continues with the remaining candidates.  The definitions below
model that dynamic semantics faithfully: JSON values are an untyped tree,
property access returns `undefined` (`none`) on non-objects, truthiness
follows JavaScript, and calling `.forEach`/`.includes` on a value lacking
the method is a thrown TypeError, modelled as `none`. -/

/-- An untyped JSON value as produced by the host `JSON.parse`. -/
inductive Json
  | null
  | bool (b : Bool)
  | num (n : Int)
  | str (s : String)
  | arr (elems : List Json)
  | obj (fields : List (String × Json))

/-- JS property access `v[key]`: a key lookup on objects, `undefined`
(`none`) on every other value. -/
def jsGet : Json → String → Option Json
  | Json.obj fields, key => (fields.find? (fun kv => kv.1 == key)).map (fun kv => kv.2)
  | _, _ => none

/-- JS truthiness of a JSON value. -/
def jsTruthy : Json → Bool
  | Json.null => false
  | Json.bool b => b
  | Json.num n => !(n == 0)
  | Json.str s => !(s == "")
  | Json.arr _ => true
  | Json.obj _ => true

/-- JS truthiness with `undefined` (`none`) falsy. -/
def jsTruthyOpt : Option Json → Bool
  | none => false
  | some v => jsTruthy v

/-- Is this JSON value the string `"*"` (the only element
`Array.prototype.includes('*')` matches)? -/
def isStarString : Json → Bool
  | Json.str s => s == "*"
  | _ => false

/-- The `config.routes.forEach(route => ...)` body of `extractDomains`
under dynamic semantics: for each element, `route.pattern` is read
(`undefined` on non-objects), a falsy pattern is skipped, a truthy string
or array pattern is kept when it does not include `'*'`, and a truthy
pattern of any other shape throws a TypeError (`none`) because it has no
`.includes` method. -/
def forEachRoutes : List Json → List Json → Option (List Json)
  | [], domains => some domains
  | route :: rest, domains =>
    let pat := jsGet route "pattern"
    if jsTruthyOpt pat then
      match pat with
      | some (Json.str s) =>
        if !(jsIncludes s "*") then forEachRoutes rest (domains ++ [Json.str s])
        else forEachRoutes rest domains
      | some (Json.arr xs) =>
        if !(xs.any isStarString) then forEachRoutes rest (domains ++ [Json.arr xs])
        else forEachRoutes rest domains
      | _ => none
    else forEachRoutes rest domains

/-- `extractDomains(config)` under dynamic semantics.  `none` models a
thrown TypeError: calling `.forEach` on a truthy non-array `routes`, or
`.includes` on a truthy non-string/non-array `pattern`.  A falsy `config`
returns `[]` as in the source's `if (!config) return []`. -/
def extractDomainsJS (config : Json) : Option (List Json) :=
  if !(jsTruthy config) then some []
  else
    let afterRoutes :=
      match jsGet config "routes" with
      | none => some ([] : List Json)
      | some routesVal =>
        if jsTruthy routesVal then
          match routesVal with
          | Json.arr elems => forEachRoutes elems []
          | _ => none
        else some []
    match afterRoutes with
    | none => none
    | some domains =>
      let patOpt :=
        match jsGet config "route" with
        | none => none
        | some Json.null => none
        | some v => jsGet v "pattern"
      if jsTruthyOpt patOpt then
        match patOpt with
        | some (Json.str s) =>
          if !(jsIncludes s "*") then some (domains ++ [Json.str s]) else some domains
        | some (Json.arr xs) =>
          if !(xs.any isStarString) then some (domains ++ [Json.arr xs]) else some domains
        | _ => none
      else some domains

/-- Encode a config produced by the restricted TOML parser as the JSON
object the source builds (only `name`, `main` and `routes` are ever
assigned, all of them well-typed strings / pattern objects). -/
def tomlJson (c : WranglerConfig) : Json :=
  Json.obj
    ((match c.name with | some n => [("name", Json.str n)] | none => []) ++
     (match c.main with | some m => [("main", Json.str m)] | none => []) ++
     (match c.routes with
      | some rs =>
        [("routes", Json.arr (rs.map (fun r => Json.obj [("pattern", Json.str r.pattern)])))]
      | none => []))

/-- `parseWranglerConfig(content, fileName)` under dynamic semantics:
`.toml` goes through the restricted line parser (never fails, produces a
well-typed value), everything else through the host `JSON.parse`, whose
result is returned unvalidated; a parse throw is caught and becomes `{}`. -/
def parseWranglerConfigJS (jsonParse : String → Option Json)
    (content fileName : String) : Json :=
  if jsEndsWith fileName ".toml" then
    tomlJson ((jsSplit content "\n").foldl parseTomlLine {})
  else
    (jsonParse content).getD (Json.obj [])

/-- The three mutable annotation fields of `processedRepo` during the
probe loop. -/
structure WorkerAnnJS where
  isWorker : Option Bool := none
  wranglerConfig : Option Json := none
  domains : Option (List Json) := none

/-- The probe loop of `processRepository` under dynamic semantics.  On a
retrieval success `isWorker` and `wranglerConfig` are assigned first; if
`extractDomains` then throws, the `catch` swallows the error — the two
assignments survive, `break` is skipped and the loop continues with the
next candidate — otherwise `domains` is assigned and the loop `break`s.
Returns the final field state and the trace of candidates requested. -/
def probeLoopJS (jsonParse : String → Option Json) (probe : String → Option String) :
    List String → WorkerAnnJS → WorkerAnnJS × List String
  | [], st => (st, [])
  | f :: rest, st =>
    match probe f with
    | none =>
      let r := probeLoopJS jsonParse probe rest st
      (r.1, f :: r.2)
    | some content =>
      let cfg := parseWranglerConfigJS jsonParse content f
      let st' : WorkerAnnJS :=
        { isWorker := some true, wranglerConfig := some cfg, domains := st.domains }
      match extractDomainsJS cfg with
      | some ds => ({ st' with domains := some ds }, [f])
      | none =>
        let r := probeLoopJS jsonParse probe rest st'
        (r.1, f :: r.2)

/-- Run the probe loop over the candidate list with the initial (absent)
annotation fields. -/
def detectWorkerJS (jsonParse : String → Option Json)
    (probe : String → Option String) : WorkerAnnJS × List String :=
  probeLoopJS jsonParse probe wranglerFiles {}

/-- `interface RepositoryWithWorker` with the dynamically-typed annotation
values the source can actually store. -/
structure RepositoryWithWorkerJS extends Repository where
  isWorker : Option Bool := none
  wranglerConfig : Option Json := none
  domains : Option (List Json) := none

/-- `processRepository(repo, accessToken)` under dynamic semantics. -/
def processRepositoryJS (jsonParse : String → Option Json) (repo : Repository)
    (probe : String → Option String) : RepositoryWithWorkerJS :=
  let r := detectWorkerJS jsonParse probe
  { toRepository := repo, isWorker := r.1.isWorker
    wranglerConfig := r.1.wranglerConfig, domains := r.1.domains }

/-- A minimal repository record used for concrete evaluations. -/
def sampleRepo : Repository :=
  { id := 1, name := "s", owner := { login := "a", id := 1 }, description := none
    html_url := "u", default_branch := "main", created_at := "c", updated_at := "d"
    topics := [], archived := false, «private» := false, homepage := none
    stargazers_count := 0, watchers_count := 0, forks := 0, open_issues := 0
    size := 0, language := none, forks_count := 0 }

/-- A probe whose first successful candidate is `wrangler.json` with the
malformed body `{` (on which the host JSON parser throws). -/
def c5probe : String → Option String :=
  fun f => if f == "wrangler.json" then some "\x7b" else none

/-- Claim C5 counterexample: the first successfully retrieved candidate is
malformed for its format (`{` as JSON), yet — unlike a probe miss — the
repository IS marked deployable and IS annotated with a (empty)
DeployConfig, because `parseWranglerConfig` catches the parse throw and
returns `{}` after `isWorker` was already set. -/
theorem C5_counterexample_malformed_marked_deployable :
    c5probe "wrangler.toml" = none ∧
    c5probe "wrangler.json" = some "\x7b" ∧
    jsonParseNone "\x7b" = none ∧
    (processRepository jsonParseNone sampleRepo c5probe).isWorker = some true ∧
    (processRepository jsonParseNone sampleRepo c5probe).wranglerConfig =
      some ({} : WranglerConfig) := by
  exact ⟨by decide, by decide, rfl, by decide, by decide⟩

/-- Claim C5 as amended: when the first successfully retrieved candidate is
a structured-data (JSON-family) file whose parse fails, the failure is NOT
treated like a probe miss — the repository is still marked deployable and
is annotated with the empty DeployConfig (and an empty domain list). -/
theorem C5_malformed_config_still_marks_deployable
    (jsonParse : String → Option WranglerConfig) (probe : String → Option String)
    (repo : Repository) (f c : String)
    (h1 : (probeFirst probe wranglerFiles).1 = some (f, c))
    (h2 : jsEndsWith f ".toml" = false)
    (h3 : jsonParse c = none) :
    processRepository jsonParse repo probe =
      { toRepository := repo, isWorker := some true
        wranglerConfig := some {}, domains := some [] } := by
  simp [processRepository, h1, parseWranglerConfig, h2, h3, extractDomains]

/-- Witness for C5's amended theorem at the concrete malformed-JSON probe. -/
theorem C5_malformed_config_still_marks_deployable_witness :
    (probeFirst c5probe wranglerFiles).1 = some ("wrangler.json", "\x7b") ∧
    processRepository jsonParseNone sampleRepo c5probe =
      { toRepository := sampleRepo, isWorker := some true
        wranglerConfig := some {}, domains := some [] } :=
  ⟨by decide,
   C5_malformed_config_still_marks_deployable jsonParseNone c5probe sampleRepo
     "wrangler.json" "\x7b" (by decide) (by decide) rfl⟩

/-! ### Claim C7 -/

lemma routes_foldl_filter (routes : List RouteRule) (acc : List String) :
    routes.foldl
      (fun acc route =>
        if !(route.pattern == "") && !(jsIncludes route.pattern "*") then
          acc ++ [route.pattern]
        else acc) acc =
      acc ++ (routes.map RouteRule.pattern).filter
        (fun p => !(p == "") && !(jsIncludes p "*")) := by
  induction routes generalizing acc with
  | nil => simp
  | cons r rest ih =>
    rw [List.foldl_cons, ih]
    cases h : (!(r.pattern == "") && !(jsIncludes r.pattern "*")) <;>
      simp [h, List.filter_cons]

/-- A probe whose first hit is a `wrangler.toml` declaring one wildcard
route pattern (the scenario file of the specification). -/
def c7probe : String → Option String :=
  fun f =>
    if f == "wrangler.toml" then
      some "name = \"svc\"\npattern = \"svc.example.com/*\""
    else none

/-- The repository processed with the wildcard-route config. -/
def c7repo : RepositoryWithWorker := processRepository jsonParseNone sampleRepo c7probe

/-- Claim C7 counterexample: a repository whose DeployConfig declares the
route pattern `svc.example.com/*` gets an empty domain list —
`extractDomains` skips every pattern containing `'*'` — so the rendered
output contains no link for that detected route pattern at all. -/
theorem C7_counterexample_wildcard_route_has_no_link :
    c7repo.wranglerConfig =
      some { name := some "svc", routes := some [{ pattern := "svc.example.com/*" }] } ∧
    c7repo.isWorker = some true ∧
    c7repo.domains = some [] ∧
    jsIncludes (generateRepoMarkdown c7repo) "svc.example.com" = false := by
  exact ⟨by decide, by decide, by decide, by decide⟩

/-- Claim C7 as amended: the rendered output contains one outbound link per
detected route pattern that is non-empty and contains no `'*'` wildcard
(taken first from the `routes` list, then from the singular `route`), and
each such domain produces exactly one link in either output format;
wildcard patterns produce no route link. -/
theorem C7_route_links_exclude_wildcards (cfg : WranglerConfig) (ds : List String) :
    extractDomains (some cfg) =
      ((cfg.routes.getD []).map RouteRule.pattern ++
        (cfg.route.map RouteRule.pattern).toList).filter
        (fun p => !(p == "") && !(jsIncludes p "*")) ∧
    (ds.map mdDomainLink).length = ds.length ∧
    (ds.map (fun domain => dL0 ++ domain ++ dL1 ++ domain ++ dL2)).length = ds.length := by
  refine ⟨?_, by simp, by simp⟩
  rcases cfg with ⟨n, routes, route, cd, m, kv, r2, d1⟩
  rcases routes with _ | routes <;> rcases route with _ | r
  · simp [extractDomains]
  · simp only [extractDomains]
    cases h : (!(r.pattern == "") && !(jsIncludes r.pattern "*")) <;>
      simp [h, List.filter_cons]
  · simp only [extractDomains]
    rw [routes_foldl_filter]
    simp
  · simp only [extractDomains]
    rw [routes_foldl_filter]
    cases h : (!(r.pattern == "") && !(jsIncludes r.pattern "*")) <;>
      simp [h, List.filter_append, List.filter_cons]

/-! ### Claim C8 -/

/-- Claim C8: a repository record with an absent optional field renders
with a fixed substitute string in that field's position — the empty string,
omitting the block — and the renderer is total, never raising an error;
moreover `homepage` and `topics` never influence the rendered card at all,
so their absence cannot fail either. -/
theorem C8_absent_optional_fields_render_fixed (repo : RepositoryWithWorker)
    (hp : Option String) (tp : List String) :
    descriptionHtml { repo with description := none } = "" ∧
    languageHtml { repo with language := none } = "" ∧
    descriptionMd { repo with description := none } = "" ∧
    languageMd { repo with language := none } = "" ∧
    generateRepoCard { repo with homepage := hp, topics := tp } = generateRepoCard repo ∧
    generateRepoMarkdown { repo with homepage := hp, topics := tp } = generateRepoMarkdown repo := by
  exact ⟨rfl, rfl, rfl, rfl, rfl, rfl⟩

/-! ### Claim C2 -/

/-- The snapshot used for the clock-dependence counterexample. -/
def d2 : DashboardData :=
  { username := "a", repositories := [], isOwner := false, currentUser := none }

/-- Claim C2 counterexample: two renderer calls with identical
(username, viewer, snapshot) inputs but different wall-clock readings
produce different markup — the HTML template embeds `Date.now()` read
inside the renderer, so repeated refreshes over unchanged upstream data
write different cache payloads. -/
theorem C2_counterexample_html_depends_on_clock :
    generateDashboard d2 .html 0 ≠ generateDashboard d2 .html 10 := by
  intro h
  have h' := congrArg String.data h
  simp only [generateDashboard, generateDashboardHtml, String.data_append,
    List.append_assoc] at h'
  have h2 := List.append_cancel_left h'
  have h3 := List.append_cancel_right h2
  exact absurd h3 (by decide)

/-- Claim C2 as amended: the renderer is a pure function of
(username, viewer, snapshot, wall-clock reading): the plaintext output is
byte-identical across calls regardless of the clock, while the markup
output depends on the clock only through the embedded machine-readable
cache annotation `{"cache":now,...}`. -/
theorem C2_renderer_deterministic_given_clock (data : DashboardData) (t₁ t₂ : Nat) :
    generateDashboard data .md t₁ = generateDashboard data .md t₂ ∧
    generateDashboard data .html t₁ =
      htmlHead1 data.username ++ jsonCacheBlob t₁ data.username ++ htmlTail data := by
  exact ⟨rfl, rfl⟩

/-! ### Claim C1 -/

/-- A private repository as returned by a credentialled upstream fetch. -/
def secretRepo : Repository := { sampleRepo with name := "secret", «private» := true }

/-- Owner refresh of user `a` whose upstream list contains one
`private = true` repository. -/
def c1inp : RefreshInput :=
  { username := "a", currentUser := some { login := "a", id := 1 }, accessToken := some "t"
    upstream := some [secretRepo], probe := probeNone, jsonParse := jsonParseNone }

/-- Claim C1 (code bug evidence): `handleRefresh` renders the raw
repository list with no privacy filtering, so the payload written under
the public-tier cache key renders the `private = true` repository — its
plaintext section header appears in the public entry, and the snapshot
behind the public writes contains a private record. -/
theorem C1_public_payload_contains_private_repo :
    secretRepo.«private» = true ∧
    ((dataOf c1inp [secretRepo]).repositories.any (fun r => r.«private»)) = true ∧
    (getWrite (handleRefresh c1inp 0).writes (cacheKey "a" "public" "md")).map
      (fun s => jsIncludes s "### secret") = some true ∧
    getWrite (handleRefresh c1inp 0).writes (cacheKey "a" "public" "md") =
      getWrite (handleRefresh c1inp 0).writes (cacheKey "a" "private" "md") := by
  exact ⟨rfl, by decide, by decide, by decide⟩
